import Mathlib

/-!
Verification of the revenue analysis and target-setting engine of the
`airline_pricing_revenue_forecasting` repository.

The embedding follows the two source modules
`advanced_revenue_optimization_analysis.py` (class `AdvancedRevenueAnalyzer`)
and `qualitative_target_revenue_optimization.py` (class `QuantitativeTargets`).

Modelling conventions:
* Python/numpy numbers are modelled as exact rationals (`ℚ`); decimal
  literals such as `1.15` denote the exact decimal value.
* numpy scalar division by zero does not raise: it emits a warning and
  returns a non-finite float (`inf`, `-inf` or `nan`).  Such a result is
  modelled as `Option ℚ` where `none` stands for a non-finite float.
* native-Python division by zero raises `ZeroDivisionError`.  This covers
  the `int / int` case and every value that pandas hands back as a native
  Python scalar: `Series.to_dict()` converts its values, and iterating a
  Series (hence the built-in `sum` over one) yields `.item()`-converted
  scalars.  Fallible computations are modelled in `Except PyError`.
* `pandas.DataFrame[...].iloc[0]` on an empty selection raises `IndexError`;
  the per-class lookup is therefore `Option`-valued, `none` meaning the
  raised exception.
* a Python dict built by repeated insertion keeps the first-insertion key
  order and the last-written value (`dictInsert` / `toDict` below).
-/

/-- A row of the pricing table: columns `Booking_Class`, `Base_Fare`,
`Peak_Price`, `Off_Peak_Price`, `Risk_Factor`. -/
structure PricingRecord where
  booking_class : String
  base_fare : ℚ
  peak_price : ℚ
  off_peak_price : ℚ
  risk_factor : ℚ
deriving DecidableEq, Repr

/-- The allocation dict: booking class ↦ seats, in insertion order. -/
abbrev Allocation := List (String × ℕ)

/-- numpy float division: a zero divisor silently yields a non-finite
float (`inf`, `-inf` or `nan`) carried here as `none`. -/
def npDiv (a b : ℚ) : Option ℚ :=
  if b = 0 then none else some (a / b)

/-- The lookup `pricing_df[pricing_df['Booking_Class'] == c].iloc[0]`: the first pricing
row whose class matches, `none` when the selection is empty (IndexError). -/
def findRecord (pricing : List PricingRecord) (c : String) : Option PricingRecord :=
  (pricing.filter (fun r => r.booking_class = c)).head?

/-- One row of the table returned by `analyze_revenue_potential`.
`revenue_per_seat` is `none` when the numpy division `Base_Revenue / seats`
had a zero divisor (the float value is then NaN, since the numerator is
zero as well). -/
structure RevenueRow where
  booking_class : String
  seats : ℕ
  base_revenue : ℚ
  peak_revenue : ℚ
  off_peak_revenue : ℚ
  revenue_range : ℚ
  risk_factor : ℚ
  revenue_per_seat : Option ℚ
deriving DecidableEq, Repr

/-- The body of the `analyze_revenue_potential` loop for one booking class:
looks up the pricing row (raising, i.e. `none`, when the class is absent)
and computes the three revenue scenarios. -/
def analyzeClass (pricing : List PricingRecord) (c : String) (seats : ℕ) :
    Option RevenueRow :=
  match findRecord pricing c with
  | none => none
  | some cd =>
    let optimal_revenue := (seats : ℚ) * cd.base_fare * (1 - cd.risk_factor)
    let peak_revenue := (seats : ℚ) * cd.peak_price * (1 - cd.risk_factor * 0.8)
    let off_peak_revenue := (seats : ℚ) * cd.off_peak_price * (1 - cd.risk_factor * 1.2)
    some { booking_class := c
           seats := seats
           base_revenue := optimal_revenue
           peak_revenue := peak_revenue
           off_peak_revenue := off_peak_revenue
           revenue_range := peak_revenue - off_peak_revenue
           risk_factor := cd.risk_factor
           revenue_per_seat := npDiv optimal_revenue (seats : ℚ) }

/-- Embeds `AdvancedRevenueAnalyzer.analyze_revenue_potential`: one row per
allocation entry, in allocation order; `none` when a lookup raised
(`IndexError` from `.iloc[0]` on an empty selection). -/
def analyze_revenue_potential (allocation : Allocation)
    (pricing : List PricingRecord) : Option (List RevenueRow) :=
  match allocation with
  | [] => some []
  | p :: rest =>
    match analyzeClass pricing p.1 p.2, analyze_revenue_potential rest pricing with
    | some row, some rows => some (row :: rows)
    | _, _ => none

/-- The four time-slot lists built by `optimize_peak_scheduling`. -/
structure TimeSlots where
  morning_peak : List String
  midday : List String
  evening_peak : List String
  off_peak : List String
deriving DecidableEq, Repr

/-- The float comparison `t < p / q` as numpy evaluates it: when `q = 0`
the quotient is `+inf` (for `p > 0`), `-inf` (for `p < 0`) or NaN (for
`p = 0`), so for a finite positive threshold `t` the comparison holds
exactly when `0 < p`. -/
def ratioGt (p q t : ℚ) : Bool :=
  if q = 0 then decide (0 < p) else decide (t < p / q)

/-- One iteration of the `optimize_peak_scheduling` loop: append the class
to the bucket selected by its peak ratio, `Morning_Peak` being capped at
`total // 4` entries. -/
def scheduleStep (total : ℕ) (slots : TimeSlots) (row : RevenueRow) : TimeSlots :=
  if ratioGt row.peak_revenue row.off_peak_revenue 1.2 then
    if slots.morning_peak.length < total / 4 then
      { slots with morning_peak := slots.morning_peak ++ [row.booking_class] }
    else
      { slots with evening_peak := slots.evening_peak ++ [row.booking_class] }
  else if ratioGt row.peak_revenue row.off_peak_revenue 1.1 then
    { slots with midday := slots.midday ++ [row.booking_class] }
  else
    { slots with off_peak := slots.off_peak ++ [row.booking_class] }

/-- Embeds `AdvancedRevenueAnalyzer.optimize_peak_scheduling`, taking the rows in
the order produced by the `sort_values('Revenue_per_Seat', ascending=False)`
step: a single greedy pass appending each class to exactly one bucket. -/
def optimize_peak_scheduling (sorted_rows : List RevenueRow) : TimeSlots :=
  sorted_rows.foldl (scheduleStep sorted_rows.length)
    { morning_peak := [], midday := [], evening_peak := [], off_peak := [] }

/-- All classes placed by a schedule, buckets concatenated. -/
def TimeSlots.assigned (ts : TimeSlots) : List String :=
  ts.morning_peak ++ ts.midday ++ ts.evening_peak ++ ts.off_peak

/-! ### QuantitativeTargets (`qualitative_target_revenue_optimization.py`) -/

/-- The Python exceptions and designed error kinds relevant to the engine.
`emptyGroupError` and `noData` exist only in the specified design; the code
can raise `zeroDivisionError` (plain-Python division) and `indexError`. -/
inductive PyError where
  | zeroDivisionError
  | indexError
  | emptyGroupError
  | noData
deriving DecidableEq, Repr

instance {ε α : Type} [DecidableEq ε] [DecidableEq α] : DecidableEq (Except ε α) := fun a b =>
  match a, b with
  | Except.error e, Except.error f =>
    if h : e = f then isTrue (by rw [h]) else isFalse (fun hh => h (Except.error.inj hh))
  | Except.ok x, Except.ok y =>
    if h : x = y then isTrue (by rw [h]) else isFalse (fun hh => h (Except.ok.inj hh))
  | Except.error _, Except.ok _ => isFalse (fun hh => Except.noConfusion hh)
  | Except.ok _, Except.error _ => isFalse (fun hh => Except.noConfusion hh)

/-- Python dict insertion: an existing key keeps its position and gets the
new value, a new key is appended. -/
def dictInsert {α : Type} (d : List (String × α)) (k : String) (v : α) :
    List (String × α) :=
  if d.any (fun p => p.1 = k) then
    d.map (fun p => if p.1 = k then (k, v) else p)
  else d ++ [(k, v)]

/-- The dict built by `.to_dict()` on a keyed sequence: first-insertion key order, last value
per key. -/
def toDict {α : Type} (l : List (String × α)) : List (String × α) :=
  l.foldl (fun d p => dictInsert d p.1 p.2) []

/-- Embeds `pricing.set_index('Booking_Class')['Risk_Factor'].to_dict()`. -/
def riskRates (pricing : List PricingRecord) : List (String × ℚ) :=
  toDict (pricing.map (fun r => (r.booking_class, r.risk_factor)))

/-- numpy comparison `b < a` on possibly non-finite values: any comparison
with NaN is false.  (In this development `none` only ever arises as NaN:
every non-finite float produced upstream has a zero numerator.) -/
def npGt (a b : Option ℚ) : Bool :=
  match a, b with
  | some a, some b => decide (b < a)
  | _, _ => false

/-- numpy comparison `a ≤ b`; false when either side is NaN. -/
def npLe (a b : Option ℚ) : Bool :=
  match a, b with
  | some a, some b => decide (a ≤ b)
  | _, _ => false

/-- numpy comparison `a < b`; false when either side is NaN. -/
def npLt (a b : Option ℚ) : Bool :=
  match a, b with
  | some a, some b => decide (a < b)
  | _, _ => false

/-- Python `sum` over possibly-NaN floats: NaN propagates. -/
def npSum (l : List (Option ℚ)) : Option ℚ :=
  l.foldl (fun acc v =>
    match acc, v with
    | some a, some b => some (a + b)
    | _, _ => none) (some 0)

/-- The `current` metrics dict of `analyze_current_performance`. -/
structure CurrentMetrics where
  total_revenue : ℚ
  avg_revenue_per_seat : Option ℚ
  class_performance : List (String × Option ℚ)
  risk_rates : List (String × ℚ)
  current_occupancy : ℚ
deriving DecidableEq, Repr

/-- Embeds `QuantitativeTargets.analyze_current_performance`.  The numerator
of `sum(Base_Revenue) / sum(allocation.values())` is a native Python number
(the built-in `sum` over a Series iterates `.item()`-converted scalars), so
a zero seat total always raises `ZeroDivisionError`; otherwise the quotient
is exact.  (`avg_revenue_per_seat` keeps the `Option` type of the
possibly-NaN per-class performance values it is compared against, but the
computed average itself is always finite.) -/
def analyze_current_performance (revenue_analysis : List RevenueRow)
    (allocation : Allocation) (pricing : List PricingRecord) :
    Except PyError CurrentMetrics :=
  let total := (revenue_analysis.map (fun r => r.base_revenue)).sum
  let seats := (allocation.map (fun p => p.2)).sum
  if seats = 0 then Except.error PyError.zeroDivisionError
  else Except.ok
    { total_revenue := total
      avg_revenue_per_seat := some (total / (seats : ℚ))
      class_performance :=
        toDict (revenue_analysis.map (fun r => (r.booking_class, r.revenue_per_seat)))
      risk_rates := riskRates pricing
      current_occupancy := (seats : ℚ) / 400 }

/-- The `overall` entry of the revenue targets. -/
structure OverallTargets where
  current_daily_revenue : ℚ
  target_daily_revenue : ℚ
  revenue_improvement : ℚ
  target_revenue_per_seat : Option ℚ
  timeframe : String
  current_rev_per_seat : Option ℚ
  target_rev_per_seat : Option ℚ
  improvement_percentage : String
deriving DecidableEq, Repr

/-- Embeds `QuantitativeTargets._set_overall_targets`. -/
def set_overall_targets (current : CurrentMetrics) : OverallTargets :=
  { current_daily_revenue := current.total_revenue
    target_daily_revenue := current.total_revenue * 1.15
    revenue_improvement := current.total_revenue * 0.15
    target_revenue_per_seat := current.avg_revenue_per_seat.map (fun v => v * 1.15)
    timeframe := "Next 6 months"
    current_rev_per_seat := current.avg_revenue_per_seat
    target_rev_per_seat := current.avg_revenue_per_seat.map (fun v => v * 1.15)
    improvement_percentage := "15%" }

def premiumLabel : String := "premium"

def midTierLabel : String := "mid_tier"

def economyLabel : String := "economy"

/-- Embeds `QuantitativeTargets._get_class_actions`: a static lookup table. -/
def get_class_actions (class_type : String) : List String :=
  if class_type = premiumLabel then
    ["Increase base fare by 10-15% during peak hours",
     "Implement loyalty program benefits",
     "Add premium services",
     "Reduce risk rate to 5%"]
  else if class_type = midTierLabel then
    ["Optimize pricing with 5-10% increases",
     "Implement flexible booking conditions",
     "Target 85% occupancy rate",
     "Reduce risk rate to 10%"]
  else
    ["Dynamic pricing based on demand",
     "Implement advance purchase discounts",
     "Target 80% occupancy rate",
     "Manage risk rate to 15%"]

/-- One tier entry of the by-class targets. -/
structure ClassTierTarget where
  classes : List String
  current_average : Option ℚ
  target_increase : String
  target_revenue : List (String × Option ℚ)
  suggested_actions : List String
deriving DecidableEq, Repr

/-- The average `sum(classes.values()) / len(classes)` for one tier: plain-Python
`ZeroDivisionError` on an empty tier (the sum of no values is the integer
0), otherwise an exact average (NaN-propagating through the sum). -/
def tierAverage (classes : List (String × Option ℚ)) :
    Except PyError (Option ℚ) :=
  if classes.isEmpty then Except.error PyError.zeroDivisionError
  else Except.ok ((npSum (classes.map (fun p => p.2))).map
    (fun s => s / (classes.length : ℚ)))

/-- The body of the `_set_class_targets` loop for one tier. -/
def mkTierTarget (class_type : String) (improvement_target : ℚ)
    (pct : String) (classes : List (String × Option ℚ)) :
    Except PyError ClassTierTarget :=
  match tierAverage classes with
  | Except.error e => Except.error e
  | Except.ok avg =>
    Except.ok
      { classes := classes.map (fun p => p.1)
        current_average := avg
        target_increase := pct
        target_revenue :=
          classes.map (fun p => (p.1, p.2.map (fun v => v * (1 + improvement_target))))
        suggested_actions := get_class_actions class_type }

/-- The by-class targets: one entry per yield tier. -/
structure ClassTargets where
  premium : ClassTierTarget
  mid_tier : ClassTierTarget
  economy : ClassTierTarget
deriving DecidableEq, Repr

def pct20 : String := "20.0%"

def pct15 : String := "15.0%"

def pct10 : String := "10.0%"

/-- The `high_yield` tier: `Revenue_per_Seat` above 1.2 × average (numpy
comparison, so a NaN performance value lands in no tier). -/
def highYield (current : CurrentMetrics) : List (String × Option ℚ) :=
  current.class_performance.filter
    (fun p => npGt p.2 (current.avg_revenue_per_seat.map (fun v => v * 1.2)))

/-- The `mid_yield` tier: `Revenue_per_Seat` within [0.8, 1.2] × average. -/
def midYield (current : CurrentMetrics) : List (String × Option ℚ) :=
  current.class_performance.filter
    (fun p => npLe (current.avg_revenue_per_seat.map (fun v => v * 0.8)) p.2 &&
      npLe p.2 (current.avg_revenue_per_seat.map (fun v => v * 1.2)))

/-- The `low_yield` tier: `Revenue_per_Seat` below 0.8 × average. -/
def lowYield (current : CurrentMetrics) : List (String × Option ℚ) :=
  current.class_performance.filter
    (fun p => npLt p.2 (current.avg_revenue_per_seat.map (fun v => v * 0.8)))

/-- Embeds `QuantitativeTargets._set_class_targets`: partition the classes into
yield tiers, then build the per-tier targets in the loop order premium,
mid_tier, economy. -/
def set_class_targets (current : CurrentMetrics) : Except PyError ClassTargets :=
  match mkTierTarget premiumLabel 0.20 pct20 (highYield current) with
  | Except.error e => Except.error e
  | Except.ok premium =>
    match mkTierTarget midTierLabel 0.15 pct15 (midYield current) with
    | Except.error e => Except.error e
    | Except.ok mid_tier =>
      match mkTierTarget economyLabel 0.10 pct10 (lowYield current) with
      | Except.error e => Except.error e
      | Except.ok economy =>
        Except.ok { premium := premium, mid_tier := mid_tier, economy := economy }

/-- One static time-period target. -/
structure TimeTarget where
  target_occupancy : ℚ
  target_premium_mix : ℚ
  revenue_premium : ℚ
deriving DecidableEq, Repr

/-- The four static time-period targets. -/
structure TimeTargets where
  peak_morning : TimeTarget
  midday : TimeTarget
  evening_peak : TimeTarget
  off_peak : TimeTarget
deriving DecidableEq, Repr

/-- Embeds `QuantitativeTargets._set_time_targets`: a constant table. -/
def set_time_targets (_current : CurrentMetrics) : TimeTargets :=
  { peak_morning := { target_occupancy := 0.95, target_premium_mix := 0.40, revenue_premium := 1.25 }
    midday := { target_occupancy := 0.85, target_premium_mix := 0.30, revenue_premium := 1.15 }
    evening_peak := { target_occupancy := 0.90, target_premium_mix := 0.35, revenue_premium := 1.20 }
    off_peak := { target_occupancy := 0.75, target_premium_mix := 0.25, revenue_premium := 1.10 } }

def premiumCodes : List String := ["J", "Y"]

def midTierCodes : List String := ["C", "B", "D", "W", "H"]

def listedCodes : List String := ["J", "Y", "C", "B", "D", "W", "H"]

/-- One `by_class_type` entry of the risk targets. -/
structure RiskGroupTarget where
  current : ℚ
  target : ℚ
deriving DecidableEq, Repr

/-- The risk targets structure. -/
structure RiskTargets where
  current_avg_risk : ℚ
  target_avg_risk : ℚ
  premium : RiskGroupTarget
  mid_tier : RiskGroupTarget
  economy : RiskGroupTarget
deriving DecidableEq, Repr

/-- The quotient `sum(selected risks) / denominator` with Python semantics:
the risk values come from `Series.to_dict()` and are therefore native
Python floats, so a zero denominator always raises `ZeroDivisionError`
(integer `0 / 0` for an empty selection, `float / 0` otherwise); a
non-zero denominator divides exactly. -/
def groupCurrentRisk (vals : List ℚ) (den : ℤ) : Except PyError ℚ :=
  if den = 0 then Except.error PyError.zeroDivisionError
  else Except.ok (vals.sum / (den : ℚ))

/-- The risk factors of the classes in the hard-coded premium group
`["J", "Y"]`. -/
def premiumRisks (rr : List (String × ℚ)) : List ℚ :=
  (rr.filter (fun p => premiumCodes.contains p.1)).map (fun p => p.2)

/-- The risk factors of the classes in the hard-coded mid-tier group
`["C", "B", "D", "W", "H"]`. -/
def midTierRisks (rr : List (String × ℚ)) : List ℚ :=
  (rr.filter (fun p => midTierCodes.contains p.1)).map (fun p => p.2)

/-- The risk factors of all remaining (economy) classes. -/
def economyRisks (rr : List (String × ℚ)) : List ℚ :=
  (rr.filter (fun p => !(listedCodes.contains p.1))).map (fun p => p.2)

/-- Embeds `QuantitativeTargets._set_risk_targets`: overall average risk over the
priced classes, then per-group averages with the fixed denominators 2, 5
and `len(risk_rates) - 7`. -/
def set_risk_targets (current : CurrentMetrics) : Except PyError RiskTargets :=
  let rr := current.risk_rates
  if rr.isEmpty then Except.error PyError.zeroDivisionError
  else
    let avg_risk := (rr.map (fun p => p.2)).sum / (rr.length : ℚ)
    match groupCurrentRisk (premiumRisks rr) 2 with
    | Except.error e => Except.error e
    | Except.ok premiumCur =>
      match groupCurrentRisk (midTierRisks rr) 5 with
      | Except.error e => Except.error e
      | Except.ok midCur =>
        match groupCurrentRisk (economyRisks rr) ((rr.length : ℤ) - 7) with
        | Except.error e => Except.error e
        | Except.ok ecoCur =>
          Except.ok
            { current_avg_risk := avg_risk
              target_avg_risk := avg_risk * 0.85
              premium := { current := premiumCur, target := 0.05 }
              mid_tier := { current := midCur, target := 0.10 }
              economy := { current := ecoCur, target := 0.15 } }

/-- The occupancy targets structure. -/
structure OccupancyTargets where
  current_occupancy : ℚ
  target_occupancy : ℚ
  premium : ℚ
  mid_tier : ℚ
  economy : ℚ
  overbooking_peak : ℚ
  overbooking_off_peak : ℚ
deriving DecidableEq, Repr

/-- Embeds `QuantitativeTargets._set_occupancy_targets`. -/
def set_occupancy_targets (current : CurrentMetrics) : OccupancyTargets :=
  { current_occupancy := current.current_occupancy
    target_occupancy := min (current.current_occupancy * 1.10) 0.95
    premium := 0.90
    mid_tier := 0.85
    economy := 0.80
    overbooking_peak := 1.15
    overbooking_off_peak := 1.10 }

/-- The full target set returned by `calculate_revenue_targets`. -/
structure TargetSet where
  overall : OverallTargets
  by_class : ClassTargets
  by_time : TimeTargets
  risk_targets : RiskTargets
  occupancy_targets : OccupancyTargets
deriving DecidableEq, Repr

/-- Embeds `QuantitativeTargets.calculate_revenue_targets`: current metrics first,
then the sub-targets in the evaluation order of the Python dict literal. -/
def calculate_revenue_targets (revenue_analysis : List RevenueRow)
    (allocation : Allocation) (pricing : List PricingRecord) :
    Except PyError TargetSet :=
  match analyze_current_performance revenue_analysis allocation pricing with
  | Except.error e => Except.error e
  | Except.ok current =>
    match set_class_targets current with
    | Except.error e => Except.error e
    | Except.ok by_class =>
      match set_risk_targets current with
      | Except.error e => Except.error e
      | Except.ok risk =>
        Except.ok
          { overall := set_overall_targets current
            by_class := by_class
            by_time := set_time_targets current
            risk_targets := risk
            occupancy_targets := set_occupancy_targets current }

/-! ### Concrete data for the specification scenarios -/

def cY : String := "Y"

def cJ : String := "J"

def cQ : String := "Q"

/-- Scenario pricing for class Y: base 200, peak 260, off-peak 150, risk 0.1. -/
def recY : PricingRecord :=
  { booking_class := cY, base_fare := 200, peak_price := 260,
    off_peak_price := 150, risk_factor := 0.1 }

/-- Scenario pricing for class J: base 500, peak 650, off-peak 400, risk 0.05. -/
def recJ : PricingRecord :=
  { booking_class := cJ, base_fare := 500, peak_price := 650,
    off_peak_price := 400, risk_factor := 0.05 }

def scenarioPricing : List PricingRecord := [recY, recJ]

/-- The scenario allocation `{"Y": 100, "J": 20}`. -/
def scenarioAllocation : Allocation := [(cY, 100), (cJ, 20)]

/-- The revenue row the analyzer computes for Y with 100 seats. -/
def rowY : RevenueRow :=
  { booking_class := cY, seats := 100, base_revenue := 18000,
    peak_revenue := 23920, off_peak_revenue := 13200, revenue_range := 10720,
    risk_factor := 0.1, revenue_per_seat := some 180 }

/-- The revenue row the analyzer computes for J with 20 seats. -/
def rowJ : RevenueRow :=
  { booking_class := cJ, seats := 20, base_revenue := 9500,
    peak_revenue := 12480, off_peak_revenue := 7520, revenue_range := 4960,
    risk_factor := 0.05, revenue_per_seat := some 475 }

/-- The scenario revenue table. -/
def scenarioRows : List RevenueRow := [rowY, rowJ]

/-! ### Helper lemmas -/

/-- The row `analyze_revenue_potential` computes from a pricing record. -/
def revenueRowOf (c : String) (s : ℕ) (cd : PricingRecord) : RevenueRow :=
  { booking_class := c
    seats := s
    base_revenue := (s : ℚ) * cd.base_fare * (1 - cd.risk_factor)
    peak_revenue := (s : ℚ) * cd.peak_price * (1 - cd.risk_factor * 0.8)
    off_peak_revenue := (s : ℚ) * cd.off_peak_price * (1 - cd.risk_factor * 1.2)
    revenue_range := (s : ℚ) * cd.peak_price * (1 - cd.risk_factor * 0.8) -
      (s : ℚ) * cd.off_peak_price * (1 - cd.risk_factor * 1.2)
    risk_factor := cd.risk_factor
    revenue_per_seat := npDiv ((s : ℚ) * cd.base_fare * (1 - cd.risk_factor)) (s : ℚ) }

theorem analyzeClass_eq {pricing : List PricingRecord} {c : String} {cd : PricingRecord}
    (s : ℕ) (hcd : findRecord pricing c = some cd) :
    analyzeClass pricing c s = some (revenueRowOf c s cd) := by
  simp [analyzeClass, hcd, revenueRowOf]

theorem analyzeClass_some {pricing : List PricingRecord} {c : String} {s : ℕ}
    {row : RevenueRow} (h : analyzeClass pricing c s = some row) :
    ∃ cd, findRecord pricing c = some cd ∧ row = revenueRowOf c s cd := by
  cases hcd : findRecord pricing c with
  | none => rw [analyzeClass, hcd] at h; exact absurd h (by simp)
  | some cd =>
    refine ⟨cd, rfl, ?_⟩
    have h2 := (analyzeClass_eq s hcd).symm.trans h
    exact (Option.some_inj.mp h2).symm

theorem analyze_revenue_potential_mem {allocation : Allocation}
    {pricing : List PricingRecord} {rows : List RevenueRow}
    (h : analyze_revenue_potential allocation pricing = some rows)
    {row : RevenueRow} (hrow : row ∈ rows) :
    ∃ p ∈ allocation, analyzeClass pricing p.1 p.2 = some row := by
  induction allocation generalizing rows with
  | nil =>
    rw [analyze_revenue_potential] at h
    cases Option.some_inj.mp h
    simp at hrow
  | cons p rest ih =>
    rw [analyze_revenue_potential] at h
    cases hc : analyzeClass pricing p.1 p.2 with
    | none => rw [hc] at h; exact absurd h (by simp)
    | some row0 =>
      cases hr : analyze_revenue_potential rest pricing with
      | none => rw [hc, hr] at h; exact absurd h (by simp)
      | some rows0 =>
        rw [hc, hr] at h
        cases Option.some_inj.mp h
        rcases List.mem_cons.mp hrow with h1 | h1
        · exact ⟨p, List.mem_cons_self p rest, h1 ▸ hc⟩
        · obtain ⟨q, hq, hq2⟩ := ih hr h1
          exact ⟨q, List.mem_cons_of_mem p hq, hq2⟩

/-! ### Claim theorems -/

/-- C1: for every booking class in the allocation, the revenue table
produced by `analyze_revenue_potential` satisfies exactly
`base_revenue = seats * base_fare * (1 - risk)`,
`peak_revenue = seats * peak_price * (1 - 0.8 * risk)`,
`off_peak_revenue = seats * off_peak_price * (1 - 1.2 * risk)` and
`revenue_range = peak_revenue - off_peak_revenue`. -/
theorem analyze_revenue_potential_formulas
    (allocation : Allocation) (pricing : List PricingRecord) (rows : List RevenueRow)
    (h : analyze_revenue_potential allocation pricing = some rows)
    (row : RevenueRow) (hrow : row ∈ rows)
    (cd : PricingRecord) (hcd : findRecord pricing row.booking_class = some cd) :
    row.base_revenue = (row.seats : ℚ) * cd.base_fare * (1 - cd.risk_factor) ∧
    row.peak_revenue = (row.seats : ℚ) * cd.peak_price * (1 - cd.risk_factor * 0.8) ∧
    row.off_peak_revenue = (row.seats : ℚ) * cd.off_peak_price * (1 - cd.risk_factor * 1.2) ∧
    row.revenue_range = row.peak_revenue - row.off_peak_revenue := by
  obtain ⟨p, _, hpc⟩ := analyze_revenue_potential_mem h hrow
  obtain ⟨cd', hcd', hrow'⟩ := analyzeClass_some hpc
  subst hrow'
  simp only [revenueRowOf] at hcd
  rw [hcd'] at hcd
  cases Option.some_inj.mp hcd
  simp [revenueRowOf]

set_option maxRecDepth 4000 in
unseal Rat.ofScientific Rat.mul Rat.inv Rat.add Rat.sub in
/-- Witness for C1: the formulas evaluated at the spec scenario, class Y. -/
theorem analyze_revenue_potential_formulas_witness :
    rowY.base_revenue = (rowY.seats : ℚ) * recY.base_fare * (1 - recY.risk_factor) ∧
    rowY.peak_revenue = (rowY.seats : ℚ) * recY.peak_price * (1 - recY.risk_factor * 0.8) ∧
    rowY.off_peak_revenue = (rowY.seats : ℚ) * recY.off_peak_price * (1 - recY.risk_factor * 1.2) ∧
    rowY.revenue_range = rowY.peak_revenue - rowY.off_peak_revenue :=
  analyze_revenue_potential_formulas scenarioAllocation scenarioPricing scenarioRows
    (by decide) rowY (by decide) recY (by decide)

/-- C7: with non-negative seats, `peak_price ≥ off_peak_price ≥ 0` and a
risk factor in [0,1], the projected peak revenue is at least the off-peak
revenue, because the risk discount on peak (factor 0.8) is no larger than
the one on off-peak (factor 1.2). -/
theorem peak_revenue_ge_off_peak_revenue
    (pricing : List PricingRecord) (c : String) (s : ℕ) (cd : PricingRecord)
    (hcd : findRecord pricing c = some cd) (row : RevenueRow)
    (hrow : analyzeClass pricing c s = some row)
    (hq0 : 0 ≤ cd.off_peak_price) (hpq : cd.off_peak_price ≤ cd.peak_price)
    (hr0 : 0 ≤ cd.risk_factor) (hr1 : cd.risk_factor ≤ 1) :
    row.off_peak_revenue ≤ row.peak_revenue := by
  rw [analyzeClass_eq s hcd] at hrow
  cases Option.some_inj.mp hrow
  simp only [revenueRowOf]
  have key : cd.off_peak_price * (1 - cd.risk_factor * 1.2) ≤
      cd.peak_price * (1 - cd.risk_factor * 0.8) := by
    nlinarith [mul_nonneg (sub_nonneg.mpr hpq)
        (by nlinarith : (0:ℚ) ≤ 1 - cd.risk_factor * 0.8),
      mul_nonneg hq0 hr0]
  nlinarith [mul_le_mul_of_nonneg_left key (show (0:ℚ) ≤ (s : ℚ) from Nat.cast_nonneg s)]

set_option maxRecDepth 4000 in
unseal Rat.ofScientific Rat.mul Rat.inv Rat.add Rat.sub in
/-- Witness for C7 at the spec scenario, class Y. -/
theorem peak_revenue_ge_off_peak_revenue_witness :
    rowY.off_peak_revenue ≤ rowY.peak_revenue :=
  peak_revenue_ge_off_peak_revenue scenarioPricing cY 100 recY (by decide) rowY
    (by decide) (by decide) (by decide) (by decide) (by decide)

/-- C8: when the allocation contains a booking class with no record in the
pricing table, `analyze_revenue_potential` fails immediately (the
`.iloc[0]` lookup raises; the spec names this condition
`UnknownClassError`) instead of producing a row or a silent default. -/
theorem unknown_class_fails
    (allocation : Allocation) (pricing : List PricingRecord)
    (c : String) (s : ℕ) (hmem : (c, s) ∈ allocation)
    (habs : findRecord pricing c = none) :
    analyze_revenue_potential allocation pricing = none := by
  induction allocation with
  | nil => simp at hmem
  | cons p rest ih =>
    rw [analyze_revenue_potential]
    rcases List.mem_cons.mp hmem with h1 | h1
    · have hc : analyzeClass pricing p.1 p.2 = none := by
        rw [analyzeClass, show p.1 = c from congrArg Prod.fst h1.symm, habs]
      rw [hc]
    · rw [ih h1]
      cases analyzeClass pricing p.1 p.2 <;> rfl

/-- Witness for C8: allocation entry Q is absent from the scenario pricing. -/
theorem unknown_class_fails_witness :
    analyze_revenue_potential [(cQ, 5)] scenarioPricing = none :=
  unknown_class_fails [(cQ, 5)] scenarioPricing cQ 5 (by decide) (by decide)

/-- C4: one pass of the scheduler assigns each class by its peak ratio:
above 1.2 it goes to Morning_Peak while that bucket holds fewer than
`total / 4` classes (integer division) and to Evening_Peak otherwise;
between 1.1 (exclusive) and 1.2 (inclusive) to Midday; at or below 1.1 to
Off_Peak — and `optimize_peak_scheduling` is exactly the greedy single
fold of this step over the sorted class order. -/
theorem peak_scheduling_threshold_rule
    (total : ℕ) (slots : TimeSlots) (row : RevenueRow)
    (hq : row.off_peak_revenue ≠ 0) :
    (∀ rs : List RevenueRow, optimize_peak_scheduling rs =
      rs.foldl (scheduleStep rs.length)
        { morning_peak := [], midday := [], evening_peak := [], off_peak := [] }) ∧
    (1.2 < row.peak_revenue / row.off_peak_revenue →
      scheduleStep total slots row =
        if slots.morning_peak.length < total / 4 then
          { slots with morning_peak := slots.morning_peak ++ [row.booking_class] }
        else { slots with evening_peak := slots.evening_peak ++ [row.booking_class] }) ∧
    (row.peak_revenue / row.off_peak_revenue ≤ 1.2 →
      1.1 < row.peak_revenue / row.off_peak_revenue →
      scheduleStep total slots row =
        { slots with midday := slots.midday ++ [row.booking_class] }) ∧
    (row.peak_revenue / row.off_peak_revenue ≤ 1.1 →
      scheduleStep total slots row =
        { slots with off_peak := slots.off_peak ++ [row.booking_class] }) := by
  refine ⟨fun rs => rfl, ?_, ?_, ?_⟩
  · intro h1
    simp [scheduleStep, ratioGt, hq, h1]
  · intro h1 h2
    simp [scheduleStep, ratioGt, hq, h2, not_lt.mpr h1]
  · intro h1
    have h2 : ¬ (1.2 : ℚ) < row.peak_revenue / row.off_peak_revenue := by
      rw [not_lt]
      exact h1.trans (by norm_num)
    simp [scheduleStep, ratioGt, hq, h2, not_lt.mpr h1]

set_option maxRecDepth 4000 in
unseal Rat.ofScientific Rat.mul Rat.inv Rat.add Rat.sub in
/-- Witness for C4: class J with peak ratio 12480/7520 > 1.2 and a full
morning bucket (2 // 4 = 0) lands in Evening_Peak. -/
theorem peak_scheduling_threshold_rule_witness :
    scheduleStep 2 { morning_peak := [], midday := [], evening_peak := [], off_peak := [] }
      rowJ =
      { morning_peak := [], midday := [], evening_peak := [cJ], off_peak := [] } := by
  rw [(peak_scheduling_threshold_rule 2
    { morning_peak := [], midday := [], evening_peak := [], off_peak := [] }
    rowJ (by decide)).2.1 (by decide)]
  decide

theorem assigned_scheduleStep (total : ℕ) (slots : TimeSlots) (row : RevenueRow) :
    List.Perm ((scheduleStep total slots row).assigned)
      (slots.assigned ++ [row.booking_class]) := by
  rw [← Multiset.coe_eq_coe]
  simp only [scheduleStep, TimeSlots.assigned]
  split_ifs <;> simp only [← Multiset.coe_add] <;> abel

theorem assigned_foldl (total : ℕ) (rows : List RevenueRow) (slots : TimeSlots) :
    List.Perm ((rows.foldl (scheduleStep total) slots).assigned)
      (slots.assigned ++ rows.map (fun r => r.booking_class)) := by
  induction rows generalizing slots with
  | nil => simp
  | cons r rest ih =>
    simp only [List.foldl_cons, List.map_cons]
    refine ((ih (scheduleStep total slots r)).trans ?_)
    refine ((assigned_scheduleStep total slots r).append_right _).trans ?_
    rw [List.append_assoc, List.singleton_append]

theorem analyze_revenue_potential_names {allocation : Allocation}
    {pricing : List PricingRecord} {rows : List RevenueRow}
    (h : analyze_revenue_potential allocation pricing = some rows) :
    rows.map (fun r => r.booking_class) = allocation.map Prod.fst := by
  induction allocation generalizing rows with
  | nil =>
    rw [analyze_revenue_potential] at h
    cases Option.some_inj.mp h
    rfl
  | cons p rest ih =>
    rw [analyze_revenue_potential] at h
    cases hc : analyzeClass pricing p.1 p.2 with
    | none => rw [hc] at h; exact absurd h (by simp)
    | some row0 =>
      cases hr : analyze_revenue_potential rest pricing with
      | none => rw [hc, hr] at h; exact absurd h (by simp)
      | some rows0 =>
        rw [hc, hr] at h
        cases Option.some_inj.mp h
        obtain ⟨cd, _, hrow⟩ := analyzeClass_some hc
        subst hrow
        simp only [List.map_cons, revenueRowOf, ih hr, List.map]

/-- C6: on every allocation whose distinct classes the analyzer prices, the
four time-slot lists form a partition: together (as a multiset) they are
exactly the allocated booking classes, and the buckets are pairwise
disjoint. -/
theorem peak_scheduling_partition
    (allocation : Allocation) (pricing : List PricingRecord)
    (rows sorted_rows : List RevenueRow)
    (h : analyze_revenue_potential allocation pricing = some rows)
    (hperm : List.Perm sorted_rows rows)
    (hnd : (allocation.map Prod.fst).Nodup) :
    List.Perm (optimize_peak_scheduling sorted_rows).assigned
      (allocation.map Prod.fst) ∧
    ((optimize_peak_scheduling sorted_rows).morning_peak.Disjoint
        (optimize_peak_scheduling sorted_rows).midday ∧
      (optimize_peak_scheduling sorted_rows).morning_peak.Disjoint
        (optimize_peak_scheduling sorted_rows).evening_peak ∧
      (optimize_peak_scheduling sorted_rows).morning_peak.Disjoint
        (optimize_peak_scheduling sorted_rows).off_peak ∧
      (optimize_peak_scheduling sorted_rows).midday.Disjoint
        (optimize_peak_scheduling sorted_rows).evening_peak ∧
      (optimize_peak_scheduling sorted_rows).midday.Disjoint
        (optimize_peak_scheduling sorted_rows).off_peak ∧
      (optimize_peak_scheduling sorted_rows).evening_peak.Disjoint
        (optimize_peak_scheduling sorted_rows).off_peak) := by
  have hassigned : List.Perm (optimize_peak_scheduling sorted_rows).assigned
      (sorted_rows.map (fun r => r.booking_class)) := by
    have := assigned_foldl sorted_rows.length sorted_rows
      { morning_peak := [], midday := [], evening_peak := [], off_peak := [] }
    simpa [optimize_peak_scheduling, TimeSlots.assigned] using this
  have hmain : List.Perm (optimize_peak_scheduling sorted_rows).assigned
      (allocation.map Prod.fst) := by
    refine hassigned.trans ?_
    rw [← analyze_revenue_potential_names h]
    exact hperm.map _
  have hnodup : (optimize_peak_scheduling sorted_rows).assigned.Nodup :=
    (hmain.nodup_iff).mpr hnd
  simp only [TimeSlots.assigned, List.nodup_append, List.disjoint_append_left,
    List.disjoint_append_right] at hnodup
  refine ⟨hmain, ?_, ?_, ?_, ?_, ?_, ?_⟩ <;> tauto

set_option maxRecDepth 4000 in
unseal Rat.ofScientific Rat.mul Rat.inv Rat.add Rat.sub in
/-- Witness for C6 at the spec scenario, processed in the descending
revenue-per-seat order [J, Y]. -/
theorem peak_scheduling_partition_witness :
    List.Perm (optimize_peak_scheduling [rowJ, rowY]).assigned
      (scenarioAllocation.map Prod.fst) :=
  (peak_scheduling_partition scenarioAllocation scenarioPricing scenarioRows
    [rowJ, rowY] (by decide) (List.Perm.swap rowY rowJ []) (by decide)).1

theorem analyze_current_performance_total {rows : List RevenueRow}
    {allocation : Allocation} {pricing : List PricingRecord} {current : CurrentMetrics}
    (h : analyze_current_performance rows allocation pricing = Except.ok current) :
    current.total_revenue = (rows.map (fun r => r.base_revenue)).sum := by
  simp only [analyze_current_performance] at h
  rw [if_neg] at h
  · cases Except.ok.inj h; rfl
  · intro hc
    rw [if_pos hc] at h
    exact absurd h (by simp)

theorem calculate_revenue_targets_ok {rows : List RevenueRow}
    {allocation : Allocation} {pricing : List PricingRecord} {t : TargetSet}
    (h : calculate_revenue_targets rows allocation pricing = Except.ok t) :
    ∃ current, analyze_current_performance rows allocation pricing = Except.ok current ∧
      t.overall = set_overall_targets current := by
  rw [calculate_revenue_targets] at h
  cases ha : analyze_current_performance rows allocation pricing with
  | error e => simp only [ha] at h; exact absurd h (by simp)
  | ok current =>
    simp only [ha] at h
    cases hb : set_class_targets current with
    | error e => simp only [hb] at h; exact absurd h (by simp)
    | ok bc =>
      simp only [hb] at h
      cases hc : set_risk_targets current with
      | error e => simp only [hc] at h; exact absurd h (by simp)
      | ok rt =>
        simp only [hc] at h
        cases Except.ok.inj h
        exact ⟨current, rfl, rfl⟩

/-- The current-metrics dict `analyze_current_performance` computes on the
spec scenario {Y: 100, J: 20}. -/
def scenarioCurrent : CurrentMetrics :=
  { total_revenue := 27500
    avg_revenue_per_seat := some (1375 / 6)
    class_performance := [(cY, some 180), (cJ, some 475)]
    risk_rates := [(cY, 0.1), (cJ, 0.05)]
    current_occupancy := 3 / 10 }

set_option maxRecDepth 4000 in
unseal Rat.ofScientific Rat.mul Rat.inv Rat.add Rat.sub in
/-- C2 (amended): whenever `calculate_revenue_targets` returns a target
set, its overall target_daily_revenue is the sum of Base_Revenue times
1.15.  On the spec scenario {Y: 100, J: 20} the current metrics do give
total_revenue = 27500 and `_set_overall_targets` does give
target_daily_revenue = 31625, but `calculate_revenue_targets` itself
raises ZeroDivisionError there (the mid_tier yield tier is empty:
Y earns 180 per seat, below 0.8 x average 1375/6), so no target set is
returned for that scenario. -/
theorem overall_target_daily_revenue :
    (∀ (rows : List RevenueRow) (allocation : Allocation)
        (pricing : List PricingRecord) (t : TargetSet),
      calculate_revenue_targets rows allocation pricing = Except.ok t →
      t.overall.target_daily_revenue = (rows.map (fun r => r.base_revenue)).sum * 1.15) ∧
    (analyze_current_performance scenarioRows scenarioAllocation scenarioPricing =
        Except.ok scenarioCurrent ∧
      scenarioCurrent.total_revenue = 27500 ∧
      (set_overall_targets scenarioCurrent).target_daily_revenue = 31625) ∧
    calculate_revenue_targets scenarioRows scenarioAllocation scenarioPricing =
      Except.error PyError.zeroDivisionError := by
  refine ⟨?_, ⟨by decide, by decide, by decide⟩, by decide⟩
  intro rows allocation pricing t h
  obtain ⟨current, hc, ho⟩ := calculate_revenue_targets_ok h
  rw [ho]
  show current.total_revenue * 1.15 = _
  rw [analyze_current_performance_total hc]

set_option maxRecDepth 4000 in
unseal Rat.ofScientific Rat.mul Rat.inv Rat.add Rat.sub in
/-- Counterexample for C2: on the claim's own scenario {Y: 100, J: 20} no
overall target (27500 / 31625) is ever returned — `calculate_revenue_targets`
raises ZeroDivisionError because the mid_tier yield tier is empty. -/
theorem overall_target_scenario_not_returned :
    calculate_revenue_targets scenarioRows scenarioAllocation scenarioPricing =
      Except.error PyError.zeroDivisionError ∧
    ∀ t : TargetSet, calculate_revenue_targets scenarioRows scenarioAllocation
      scenarioPricing ≠ Except.ok t := by
  refine ⟨by decide, fun t ht => ?_⟩
  have h : calculate_revenue_targets scenarioRows scenarioAllocation scenarioPricing =
      Except.error PyError.zeroDivisionError := by decide
  rw [h] at ht
  exact Except.noConfusion ht

def cA : String := "A"

def cB : String := "B"

def cC : String := "C"

/-- A revenue table on which every yield tier is inhabited, so that
`calculate_revenue_targets` succeeds end to end. -/
def wRows : List RevenueRow :=
  [{ booking_class := cA, seats := 10, base_revenue := 1000, peak_revenue := 0,
     off_peak_revenue := 0, revenue_range := 0, risk_factor := 0.1,
     revenue_per_seat := some 300 },
   { booking_class := cB, seats := 10, base_revenue := 600, peak_revenue := 0,
     off_peak_revenue := 0, revenue_range := 0, risk_factor := 0.1,
     revenue_per_seat := some 200 },
   { booking_class := cC, seats := 10, base_revenue := 400, peak_revenue := 0,
     off_peak_revenue := 0, revenue_range := 0, risk_factor := 0.1,
     revenue_per_seat := some 100 }]

def wAlloc : Allocation := [(cA, 10)]

set_option maxRecDepth 4000 in
unseal Rat.ofScientific Rat.mul Rat.inv Rat.add Rat.sub in
/-- Witness for C2 on a fully succeeding input: the returned overall
target is the Base_Revenue sum (2000) times 1.15. -/
theorem overall_target_daily_revenue_witness :
    ∃ t, calculate_revenue_targets wRows wAlloc [recY] = Except.ok t ∧
      t.overall.target_daily_revenue = 2300 := by
  have hsome : (calculate_revenue_targets wRows wAlloc [recY]).isOk = true := by decide
  cases ht : calculate_revenue_targets wRows wAlloc [recY] with
  | error e => rw [ht] at hsome; exact absurd hsome (by simp [Except.isOk, Except.toBool])
  | ok t =>
    refine ⟨t, rfl, ?_⟩
    rw [overall_target_daily_revenue.1 wRows wAlloc [recY] t ht]
    decide

theorem mkTierTarget_nil (ct : String) (i : ℚ) (p : String) :
    mkTierTarget ct i p [] = Except.error PyError.zeroDivisionError := rfl

theorem mkTierTarget_error {ct : String} {i : ℚ} {p : String}
    {classes : List (String × Option ℚ)} {e : PyError}
    (h : mkTierTarget ct i p classes = Except.error e) :
    e = PyError.zeroDivisionError := by
  rw [mkTierTarget, tierAverage] at h
  split_ifs at h with h1
  exact (Except.error.inj h).symm

/-- C9 (amended): an empty yield tier makes `calculate_revenue_targets`
propagate a raw Python `ZeroDivisionError` (`sum({}) / len({})` is the
integer division `0 / 0`); no `EmptyGroupError` is raised and no "no data"
degradation happens.  (The risk-target groups, by contrast, never check
emptiness at all — see the C10 theorem.) -/
theorem empty_tier_zero_division
    (rows : List RevenueRow) (allocation : Allocation) (pricing : List PricingRecord)
    (current : CurrentMetrics)
    (hcur : analyze_current_performance rows allocation pricing = Except.ok current)
    (hempty : highYield current = [] ∨ midYield current = [] ∨ lowYield current = []) :
    calculate_revenue_targets rows allocation pricing =
      Except.error PyError.zeroDivisionError := by
  have hcls : set_class_targets current = Except.error PyError.zeroDivisionError := by
    rw [set_class_targets]
    rcases hempty with h | h | h
    · simp only [h, mkTierTarget_nil]
    · cases hh : mkTierTarget premiumLabel 0.20 pct20 (highYield current) with
      | error e =>
        have he := mkTierTarget_error hh
        subst he
        simp only [hh]
      | ok tt =>
        simp only [hh, h, mkTierTarget_nil]
    · cases hh : mkTierTarget premiumLabel 0.20 pct20 (highYield current) with
      | error e =>
        have he := mkTierTarget_error hh
        subst he
        simp only [hh]
      | ok tt =>
        cases hh2 : mkTierTarget midTierLabel 0.15 pct15 (midYield current) with
        | error e =>
          have he := mkTierTarget_error hh2
          subst he
          simp only [hh, hh2]
        | ok tt2 =>
          simp only [hh, hh2, h, mkTierTarget_nil]
  rw [calculate_revenue_targets, hcur]
  simp only [hcls]

set_option maxRecDepth 4000 in
unseal Rat.ofScientific Rat.mul Rat.inv Rat.add Rat.sub in
/-- Counterexample for C9: with the single-class table Y (180 per seat,
average 180, so the premium tier `v > 216` is empty) the code raises a raw
`ZeroDivisionError` — not `EmptyGroupError`, not a "no data" result. -/
theorem empty_tier_raw_error_counterexample :
    calculate_revenue_targets [rowY] [(cY, 100)] [recY] =
      Except.error PyError.zeroDivisionError ∧
    PyError.zeroDivisionError ≠ PyError.emptyGroupError ∧
    PyError.zeroDivisionError ≠ PyError.noData := by
  exact ⟨by decide, by decide, by decide⟩

/-- The current metrics for the single-class table Y with 100 seats. -/
def singleCurrent : CurrentMetrics :=
  { total_revenue := 18000
    avg_revenue_per_seat := some 180
    class_performance := [(cY, some 180)]
    risk_rates := [(cY, 0.1)]
    current_occupancy := 1 / 4 }

set_option maxRecDepth 4000 in
unseal Rat.ofScientific Rat.mul Rat.inv Rat.add Rat.sub in
/-- Witness for C9 on the single-class table Y: its premium tier is empty. -/
theorem empty_tier_zero_division_witness :
    calculate_revenue_targets [rowY] [(cY, 100)] [recY] =
      Except.error PyError.zeroDivisionError :=
  empty_tier_zero_division [rowY] [(cY, 100)] [recY] singleCurrent (by decide)
    (Or.inl (by decide))

theorem groupCurrentRisk_of_ne {vals : List ℚ} {den : ℤ} (h : den ≠ 0) :
    groupCurrentRisk vals den = Except.ok (vals.sum / (den : ℚ)) := by
  rw [groupCurrentRisk, if_neg h]

theorem groupCurrentRisk_zero (vals : List ℚ) :
    groupCurrentRisk vals 0 = Except.error PyError.zeroDivisionError := rfl

/-- C10: the per-group current risk averages use the fixed denominators 2,
5 and `len(risk_rates) - 7`, independent of which of the listed class
codes actually exist; with exactly 7 priced classes the economy branch
divides by zero, raising `ZeroDivisionError` (the dict values from
`Series.to_dict()` are native Python floats). -/
theorem set_risk_targets_fixed_denominators
    (current : CurrentMetrics) (hne : current.risk_rates ≠ []) :
    (current.risk_rates.length ≠ 7 →
      ∃ rt, set_risk_targets current = Except.ok rt ∧
        rt.current_avg_risk =
          (current.risk_rates.map (fun p => p.2)).sum / (current.risk_rates.length : ℚ) ∧
        rt.premium.current = (premiumRisks current.risk_rates).sum / 2 ∧
        rt.mid_tier.current = (midTierRisks current.risk_rates).sum / 5 ∧
        rt.economy.current = (economyRisks current.risk_rates).sum /
          (((current.risk_rates.length : ℤ) - 7 : ℤ) : ℚ)) ∧
    (current.risk_rates.length = 7 →
      set_risk_targets current = Except.error PyError.zeroDivisionError) := by
  have hni : current.risk_rates.isEmpty = false := by
    cases hrr : current.risk_rates with
    | nil => exact absurd hrr hne
    | cons a l => rfl
  have hcond : ¬ current.risk_rates.isEmpty = true := by simp [hni]
  have h2 : (2 : ℤ) ≠ 0 := by norm_num
  have h5 : (5 : ℤ) ≠ 0 := by norm_num
  constructor
  · intro h7
    have hden : ((current.risk_rates.length : ℤ) - 7) ≠ 0 := by
      intro hc
      exact h7 (by omega)
    simp only [set_risk_targets, if_neg hcond, groupCurrentRisk_of_ne h2,
      groupCurrentRisk_of_ne h5, groupCurrentRisk_of_ne hden]
    exact ⟨_, rfl, rfl, rfl, rfl, rfl⟩
  · intro h7
    have hden0 : ((current.risk_rates.length : ℤ) - 7) = 0 := by omega
    simp only [set_risk_targets, if_neg hcond, groupCurrentRisk_of_ne h2,
      groupCurrentRisk_of_ne h5, hden0, groupCurrentRisk_zero]

set_option maxRecDepth 4000 in
unseal Rat.ofScientific Rat.mul Rat.inv Rat.add Rat.sub in
/-- Witness for C10: a single priced class Y gives premium current risk
0.1 / 2 (the fixed denominator 2, not the true one-class mean 0.1). -/
theorem set_risk_targets_fixed_denominators_witness :
    ∃ rt, set_risk_targets singleCurrent = Except.ok rt ∧
      rt.current_avg_risk =
        (singleCurrent.risk_rates.map (fun p => p.2)).sum /
          (singleCurrent.risk_rates.length : ℚ) ∧
      rt.premium.current = (premiumRisks singleCurrent.risk_rates).sum / 2 ∧
      rt.mid_tier.current = (midTierRisks singleCurrent.risk_rates).sum / 5 ∧
      rt.economy.current = (economyRisks singleCurrent.risk_rates).sum /
        (((singleCurrent.risk_rates.length : ℤ) - 7 : ℤ) : ℚ) :=
  (set_risk_targets_fixed_denominators singleCurrent (by decide)).1 (by decide)

/-- The row the analyzer produces for class Y with zero seats: every
revenue is 0 and `Revenue_per_Seat` is the silent numpy NaN. -/
def zeroSeatRow : RevenueRow :=
  { booking_class := cY, seats := 0, base_revenue := 0, peak_revenue := 0,
    off_peak_revenue := 0, revenue_range := 0, risk_factor := 0.1,
    revenue_per_seat := none }

set_option maxRecDepth 4000 in
unseal Rat.ofScientific Rat.mul Rat.inv Rat.add Rat.sub in
/-- Counterexample for C3: with seats(Y) = 0 the analyzer does not fail —
it returns a table whose `Revenue_per_Seat` is the silent non-finite numpy
value (`none`), and the scheduler then consumes the zero off-peak revenue
without any error, filing the class under Off_Peak (NaN comparisons are
false). -/
theorem division_by_zero_silent_counterexample :
    analyze_revenue_potential [(cY, 0)] [recY] = some [zeroSeatRow] ∧
    zeroSeatRow.revenue_per_seat = none ∧
    zeroSeatRow.off_peak_revenue = 0 ∧
    optimize_peak_scheduling [zeroSeatRow] =
      { morning_peak := [], midday := [], evening_peak := [], off_peak := [cY] } := by
  exact ⟨by decide, by decide, by decide, by decide⟩

/-- C3 (amended): a zero divisor never raises.  Zero seats produce a row
whose revenues are 0 and whose `Revenue_per_Seat` is NaN (`none`); a zero
off-peak revenue gives the scheduler a non-finite peak ratio and the class
is still assigned — to Off_Peak when the peak revenue is also 0 (NaN
ratio) or negative (-inf), and to a peak bucket when it is positive
(+inf). -/
theorem division_by_zero_yields_nan
    (pricing : List PricingRecord) (c : String) (cd : PricingRecord)
    (hcd : findRecord pricing c = some cd) :
    (∃ row, analyzeClass pricing c 0 = some row ∧ row.revenue_per_seat = none ∧
      row.peak_revenue = 0 ∧ row.off_peak_revenue = 0) ∧
    (∀ (total : ℕ) (slots : TimeSlots) (row : RevenueRow),
      row.off_peak_revenue = 0 → row.peak_revenue = 0 →
      scheduleStep total slots row =
        { slots with off_peak := slots.off_peak ++ [row.booking_class] }) ∧
    (∀ (total : ℕ) (slots : TimeSlots) (row : RevenueRow),
      row.off_peak_revenue = 0 → 0 < row.peak_revenue →
      scheduleStep total slots row =
        if slots.morning_peak.length < total / 4 then
          { slots with morning_peak := slots.morning_peak ++ [row.booking_class] }
        else { slots with evening_peak := slots.evening_peak ++ [row.booking_class] }) := by
  refine ⟨⟨revenueRowOf c 0 cd, analyzeClass_eq 0 hcd, ?_, ?_, ?_⟩, ?_, ?_⟩
  · simp [revenueRowOf, npDiv]
  · simp [revenueRowOf]
  · simp [revenueRowOf]
  · intro total slots row hq hp
    simp [scheduleStep, ratioGt, hq, hp]
  · intro total slots row hq hp
    simp [scheduleStep, ratioGt, hq, hp]

set_option maxRecDepth 4000 in
unseal Rat.ofScientific Rat.mul Rat.inv Rat.add Rat.sub in
/-- Witness for C3 (amended) at class Y with zero seats. -/
theorem division_by_zero_yields_nan_witness :
    (∃ row, analyzeClass [recY] cY 0 = some row ∧ row.revenue_per_seat = none ∧
      row.peak_revenue = 0 ∧ row.off_peak_revenue = 0) ∧
    scheduleStep 1 { morning_peak := [], midday := [], evening_peak := [], off_peak := [] }
      zeroSeatRow =
      { morning_peak := [], midday := [], evening_peak := [], off_peak := [cY] } := by
  have h := division_by_zero_yields_nan [recY] cY recY (by decide)
  exact ⟨h.1, h.2.1 1 _ zeroSeatRow (by decide) (by decide)⟩
